import Mathlib

/-! Shallow embedding of `tools/prompt-validator.py` from the ai-coding-rules
repository.  A document is a list of characters.  The handful of regular
expressions the script uses are alternating runs of literal characters and
`\s+`, so they are embedded as token lists together with a backtracking
matcher; case-insensitivity mirrors `re.IGNORECASE` over ASCII.  The mutable
`PromptValidator` instance becomes an explicit state record, and the file
system's answer to one `open` attempt becomes a `LoadOutcome` value. -/

/-- A token of the regex fragment the validator uses: a literal character run
(matched case-insensitively) or `\s+` (one or more whitespace characters). -/
inductive PatTok where
  | lit : List Char → PatTok
  | ws : PatTok
  deriving DecidableEq

/-- ASCII case-insensitive character comparison, mirroring `re.IGNORECASE`:
equal, or the same letter in the two cases (codes differing by 32 with the
upper-case one in 65..90). -/
def ciCharEq (a b : Char) : Bool :=
  a == b ||
    (decide (a.toNat + 32 = b.toNat) && decide (65 ≤ a.toNat) && decide (a.toNat ≤ 90)) ||
    (decide (b.toNat + 32 = a.toNat) && decide (65 ≤ b.toNat) && decide (b.toNat ≤ 90))

/-- Python `\s` over ASCII: space, tab, line feed, carriage return, vertical
tab, form feed. -/
def isWsChar (c : Char) : Bool :=
  c == ' ' || c == Char.ofNat 9 || c == Char.ofNat 10 || c == Char.ofNat 13 ||
    c == Char.ofNat 11 || c == Char.ofNat 12

/-- Strip a case-insensitive literal from the front of `s`, returning the
remainder, or `none` when the literal does not match there. -/
def litStrip : List Char → List Char → Option (List Char)
  | [], s => some s
  | _ :: _, [] => none
  | a :: as, b :: bs => if ciCharEq a b then litStrip as bs else none

/-- The remainders of `s` after consuming one or more leading whitespace
characters: every way `\s+` can match at the front of `s`. -/
def wsSuffixes : List Char → List (List Char)
  | [] => []
  | c :: s => if isWsChar c then s :: wsSuffixes s else []

/-- Does the token list match some prefix of `s`?  `\s+` tries every possible
length, so this decides the existence of a match anchored at the start of
`s`. -/
def matchToks : List PatTok → List Char → Bool
  | [], _ => true
  | PatTok.lit l :: rest, s =>
      match litStrip l s with
      | some s1 => matchToks rest s1
      | none => false
  | PatTok.ws :: rest, s => (wsSuffixes s).any fun s1 => matchToks rest s1

/-- Python `re.search`: does the token list match starting at any position? -/
def reSearch : List PatTok → List Char → Bool
  | toks, [] => matchToks toks []
  | toks, c :: rest => matchToks toks (c :: rest) || reSearch toks rest

/-- Case-sensitive literal match anchored at the start of the second list. -/
def litAt : List Char → List Char → Bool
  | [], _ => true
  | _ :: _, [] => false
  | a :: as, b :: bs => a == b && litAt as bs

/-- Python substring test `needle in s`. -/
def containsSubstr (needle : List Char) : List Char → Bool
  | [] => litAt needle []
  | c :: rest => litAt needle (c :: rest) || containsSubstr needle rest

/-- Character lists equal up to ASCII case, position by position. -/
def ciEqList : List Char → List Char → Bool
  | [], [] => true
  | a :: as, b :: bs => ciCharEq a b && ciEqList as bs
  | _, _ => false

namespace PromptValidator

/-- The pattern `r'##\s+Context'`. -/
def patContext : List PatTok :=
  [PatTok.lit ['#', '#'], PatTok.ws, PatTok.lit ['C', 'o', 'n', 't', 'e', 'x', 't']]

/-- The pattern `r'##\s+Task'`. -/
def patTask : List PatTok :=
  [PatTok.lit ['#', '#'], PatTok.ws, PatTok.lit ['T', 'a', 's', 'k']]

/-- The pattern `r'##\s+Requirements'`. -/
def patRequirements : List PatTok :=
  [PatTok.lit ['#', '#'], PatTok.ws,
   PatTok.lit ['R', 'e', 'q', 'u', 'i', 'r', 'e', 'm', 'e', 'n', 't', 's']]

/-- The pattern `r'##\s+Validation'`. -/
def patValidation : List PatTok :=
  [PatTok.lit ['#', '#'], PatTok.ws,
   PatTok.lit ['V', 'a', 'l', 'i', 'd', 'a', 't', 'i', 'o', 'n']]

/-- The pattern `r'##\s+Output\s+Format'`. -/
def patOutputFormat : List PatTok :=
  [PatTok.lit ['#', '#'], PatTok.ws, PatTok.lit ['O', 'u', 't', 'p', 'u', 't'],
   PatTok.ws, PatTok.lit ['F', 'o', 'r', 'm', 'a', 't']]

/-- The pattern `r'##\s+Security'`. -/
def patSecurity : List PatTok :=
  [PatTok.lit ['#', '#'], PatTok.ws,
   PatTok.lit ['S', 'e', 'c', 'u', 'r', 'i', 't', 'y']]

/-- `REQUIRED_SECTIONS`: section identifier paired with its heading pattern,
in the insertion order of the Python dict. -/
def REQUIRED_SECTIONS : List (String × List PatTok) :=
  [("context", patContext), ("task", patTask), ("requirements", patRequirements),
   ("validation", patValidation), ("output_format", patOutputFormat),
   ("security", patSecurity)]

/-- The pattern `r'build\s+me\s+a'`. -/
def patBuildMeA : List PatTok :=
  [PatTok.lit ['b', 'u', 'i', 'l', 'd'], PatTok.ws, PatTok.lit ['m', 'e'],
   PatTok.ws, PatTok.lit ['a']]

/-- The `generic_phrases` list of `check_specificity`, in source order:
`build\s+me\s+a`, `create\s+a\s+simple`, `make\s+it\s+work`, `fix\s+this`. -/
def generic_phrases : List (List PatTok) :=
  [patBuildMeA,
   [PatTok.lit ['c', 'r', 'e', 'a', 't', 'e'], PatTok.ws, PatTok.lit ['a'],
    PatTok.ws, PatTok.lit ['s', 'i', 'm', 'p', 'l', 'e']],
   [PatTok.lit ['m', 'a', 'k', 'e'], PatTok.ws, PatTok.lit ['i', 't'],
    PatTok.ws, PatTok.lit ['w', 'o', 'r', 'k']],
   [PatTok.lit ['f', 'i', 'x'], PatTok.ws, PatTok.lit ['t', 'h', 'i', 's']]]

/-- Python `str.title()` over ASCII: a letter after a non-letter is
upper-cased, a letter after a letter is lower-cased; the flag records whether
the previous character was a letter. -/
def pyTitleAux : Bool → List Char → List Char
  | _, [] => []
  | prev, c :: cs =>
      if c.isAlpha then
        (if prev then c.toLower else c.toUpper) :: pyTitleAux true cs
      else c :: pyTitleAux false cs

/-- The error text of `check_required_sections` for one missing section:
underscores become spaces and the name is title-cased. -/
def missingMsg (name : String) : String :=
  "Missing required section: " ++
    String.mk (pyTitleAux false (name.toList.map fun c => if c == '_' then ' ' else c))

/-- The (single, repeated) warning text of `check_specificity`. -/
def genericMsg : String := "Generic phrase detected - ensure specificity (Rule 1)"

/-- The warning text of `check_examples`. -/
def noExamplesMsg : String := "No code examples found - consider adding examples (Rule 9)"

/-- The fenced code-block marker searched for by `check_examples`: three
backquote characters (code 96). -/
def tripleBacktick : List Char := [Char.ofNat 96, Char.ofNat 96, Char.ofNat 96]

/-- The state of one `PromptValidator` instance: the constructor stores the
path and sets `content = ''`, `errors = []`, `warnings = []`. -/
structure VState where
  filepath : String
  content : List Char
  errors : List String
  warnings : List String
  deriving DecidableEq

/-- `PromptValidator(filepath)`. -/
def initState (fp : String) : VState :=
  { filepath := fp, content := [], errors := [], warnings := [] }

/-- The file system's answer to one `open`-and-read attempt: the content, a
`FileNotFoundError`, or any other exception carrying its text. -/
inductive LoadOutcome where
  | ok : List Char → LoadOutcome
  | notFound : LoadOutcome
  | readError : String → LoadOutcome
  deriving DecidableEq

/-- `load_file`: on success store the content and return `True`; otherwise
append the matching error message and return `False`. -/
def load_file (outcome : LoadOutcome) (st : VState) : Bool × VState :=
  match outcome with
  | LoadOutcome.ok c => (true, { st with content := c })
  | LoadOutcome.notFound =>
      (false, { st with errors := st.errors ++ ["File not found: " ++ st.filepath] })
  | LoadOutcome.readError e =>
      (false, { st with errors := st.errors ++ ["Error reading file: " ++ e] })

/-- `check_required_sections`: append one error per required pattern that does
not match anywhere in the content. -/
def check_required_sections (content : List Char) (errors : List String) : List String :=
  REQUIRED_SECTIONS.foldl
    (fun errs s => if reSearch s.2 content then errs else errs ++ [missingMsg s.1]) errors

/-- `check_specificity`: append the generic-phrase warning once per phrase
pattern that matches anywhere in the content. -/
def check_specificity (content : List Char) (warnings : List String) : List String :=
  generic_phrases.foldl
    (fun warns p => if reSearch p content then warns ++ [genericMsg] else warns) warnings

/-- `check_examples`: warn when no fenced code-block marker occurs. -/
def check_examples (content : List Char) (warnings : List String) : List String :=
  if containsSubstr tripleBacktick content then warnings else warnings ++ [noExamplesMsg]

/-- `validate`: run `load_file`, return `False` at once on failure, otherwise
run the three checks in order and return whether the error list is empty. -/
def validate (outcome : LoadOutcome) (st : VState) : Bool × VState :=
  match load_file outcome st with
  | (false, st1) => (false, st1)
  | (true, st1) =>
      let st2 := { st1 with errors := check_required_sections st1.content st1.errors }
      let st3 := { st2 with warnings := check_specificity st2.content st2.warnings }
      let st4 := { st3 with warnings := check_examples st3.content st3.warnings }
      (st4.errors.isEmpty, st4)

/-- `print_report`: prints the findings and returns `True` exactly when the
error list is empty (the early all-checks-passed branch also has none). -/
def print_report (st : VState) : Bool :=
  if st.errors.isEmpty && st.warnings.isEmpty then true
  else st.errors.isEmpty

end PromptValidator

open PromptValidator in
/-- `main`: with no path argument print usage and exit 1; otherwise build a
validator for `sys.argv[1]` (the first path argument only), run `validate`
and `print_report`, and exit 0 on a successful report and 1 otherwise.  The
result is the exit status together with the list of paths actually validated;
`fs` supplies each path's load outcome. -/
def mainRun (args : List String) (fs : String → LoadOutcome) : Nat × List String :=
  match args with
  | [] => (1, [])
  | fp :: _ =>
      let st := (validate (fs fp) (initState fp)).2
      if print_report st then (0, [fp]) else (1, [fp])

/-- The required sections whose pattern matches nowhere in the content:
exactly the sections `check_required_sections` reports missing. -/
def missingSections (content : List Char) : List (String × List PatTok) :=
  PromptValidator.REQUIRED_SECTIONS.filter fun s => !reSearch s.2 content

/-- The phrase `build me a` as written, lower case, single spaces. -/
def buildMeAList : List Char := ['b', 'u', 'i', 'l', 'd', ' ', 'm', 'e', ' ', 'a']

/-- A fully compliant document: all six headings, no generic phrase, one
fenced code block. -/
def c1doc : List Char :=
  ("## Context\nA\n## Task\nB\n## Requirements\nC\n## Validation\nD\n" ++
   "## Output Format\nE\n## Security\nF\n").toList ++
    PromptValidator.tripleBacktick ++ ("py").toList ++ PromptValidator.tripleBacktick

/-- A document with only the Context heading, as in the spec's end-to-end
example. -/
def c2doc : List Char := ("## Context\nhello").toList

/-- A document matching two distinct generic phrases. -/
def c3doc : List Char := ("build me a thing and fix this").toList

/-- Prefix of the compliance-plus-phrase document: all six headings. -/
def c5pre : List Char :=
  ("## Context\n## Task\n## Requirements\n## Validation\n" ++
   "## Output Format\n## Security\n").toList

/-- The mixed-case occurrence of the generic phrase. -/
def c5occ : List Char := ['B', 'u', 'i', 'l', 'd', ' ', 'm', 'e', ' ', 'a']

/-- Suffix of the compliance-plus-phrase document. -/
def c5post : List Char := (" web scraper\n").toList

/-- A compliant document containing `Build me a`. -/
def c5doc : List Char := c5pre ++ c5occ ++ c5post

/-- A document with no fenced code-block marker. -/
def c6doc : List Char := ("hello world").toList

/-- Text before a heading occurrence, ending mid-line in an extra `#`. -/
def c10pre : List Char := ("Some text #").toList

/-- A heading occurrence starting inside the line: with the prefix above it
reads `### Context in passing`. -/
def c10rest : List Char := ("## Context in passing").toList

/-- Unfolding `check_required_sections`: the final error list is the initial
one followed by one `missingMsg` per section whose pattern matches nowhere,
in table order. -/
theorem check_required_sections_eq (content : List Char) (errors : List String) :
    PromptValidator.check_required_sections content errors
      = errors ++ (missingSections content).map fun s => PromptValidator.missingMsg s.1 := by
  unfold PromptValidator.check_required_sections missingSections
  generalize PromptValidator.REQUIRED_SECTIONS = l
  induction l generalizing errors with
  | nil => simp
  | cons hd tl ih =>
      by_cases h : reSearch hd.2 content
      · simp [List.foldl_cons, List.filter_cons, h, ih]
      · simp [List.foldl_cons, List.filter_cons, h, ih]

/-- Unfolding `check_specificity`: the final warning list is the initial one
followed by one copy of the generic-phrase warning per matching phrase. -/
theorem check_specificity_eq (content : List Char) (warnings : List String) :
    PromptValidator.check_specificity content warnings
      = warnings ++ ((PromptValidator.generic_phrases.filter fun p => reSearch p content).map
          fun _ => PromptValidator.genericMsg) := by
  unfold PromptValidator.check_specificity
  generalize PromptValidator.generic_phrases = l
  induction l generalizing warnings with
  | nil => simp
  | cons hd tl ih =>
      by_cases h : reSearch hd content
      · simp [List.foldl_cons, List.filter_cons, h, ih]
      · simp [List.foldl_cons, List.filter_cons, h, ih]

/-- A match anchored anywhere gives a successful search: if the tokens match
at the start of `rest`, the search succeeds on `pre ++ rest`. -/
theorem reSearch_of_matchToks (toks : List PatTok) (pre rest : List Char)
    (h : matchToks toks rest = true) : reSearch toks (pre ++ rest) = true := by
  induction pre with
  | nil =>
      cases rest with
      | nil => exact h
      | cons c cs => simp [reSearch, h]
  | cons c cs ih => simp [reSearch, ih]

/-- Only the space character is case-insensitively equal to a space. -/
theorem eq_space_of_ciCharEq (c : Char) (h : ciCharEq ' ' c = true) : c = ' ' := by
  rw [ciCharEq] at h
  simp only [Bool.or_eq_true, Bool.and_eq_true, decide_eq_true_eq, beq_iff_eq] at h
  have hsp : (' ' : Char).toNat = 32 := rfl
  rcases h with (h1 | h2) | h3
  · exact h1.symm
  · exfalso
    have hb := h2.1.2
    omega
  · exfalso
    have ha := h3.1.1
    have hb := h3.1.2
    omega

/-- Any occurrence of `build me a`, up to ASCII case, is matched by the
`build\s+me\s+a` pattern anchored at its start. -/
theorem matchToks_buildMeA (occ post : List Char)
    (h : ciEqList buildMeAList occ = true) :
    matchToks PromptValidator.patBuildMeA (occ ++ post) = true := by
  simp only [buildMeAList] at h
  rcases occ with _ | ⟨d0, occ⟩
  · exact absurd h (by decide)
  rcases occ with _ | ⟨d1, occ⟩
  · simp [ciEqList] at h
  rcases occ with _ | ⟨d2, occ⟩
  · simp [ciEqList] at h
  rcases occ with _ | ⟨d3, occ⟩
  · simp [ciEqList] at h
  rcases occ with _ | ⟨d4, occ⟩
  · simp [ciEqList] at h
  rcases occ with _ | ⟨d5, occ⟩
  · simp [ciEqList] at h
  rcases occ with _ | ⟨d6, occ⟩
  · simp [ciEqList] at h
  rcases occ with _ | ⟨d7, occ⟩
  · simp [ciEqList] at h
  rcases occ with _ | ⟨d8, occ⟩
  · simp [ciEqList] at h
  rcases occ with _ | ⟨d9, occ⟩
  · simp [ciEqList] at h
  rcases occ with _ | ⟨d10, occ⟩
  · simp only [ciEqList, Bool.and_eq_true] at h
    obtain ⟨h0, h1, h2, h3, h4, h5, h6, h7, h8, h9, -⟩ := h
    have e5 : d5 = ' ' := eq_space_of_ciCharEq d5 h5
    have e8 : d8 = ' ' := eq_space_of_ciCharEq d8 h8
    subst e5
    subst e8
    simp [PromptValidator.patBuildMeA, matchToks, litStrip, wsSuffixes, isWsChar,
      h0, h1, h2, h3, h4, h6, h7, h9]
  · simp [ciEqList] at h

/-- `print_report` returns exactly the emptiness of the error list. -/
theorem print_report_eq (st : PromptValidator.VState) :
    PromptValidator.print_report st = st.errors.isEmpty := by
  unfold PromptValidator.print_report
  by_cases h : (st.errors.isEmpty && st.warnings.isEmpty) = true
  · rw [if_pos h]
    rw [Bool.and_eq_true] at h
    exact h.1.symm
  · rw [if_neg h]

/-- Evaluating `validate` on a fresh instance with a successfully loaded
document, in terms of the missing-section and matching-phrase lists. -/
theorem validate_ok (fp : String) (content : List Char) :
    PromptValidator.validate (PromptValidator.LoadOutcome.ok content)
        (PromptValidator.initState fp)
      = (((missingSections content).map fun s => PromptValidator.missingMsg s.1).isEmpty,
         { filepath := fp, content := content,
           errors := (missingSections content).map fun s => PromptValidator.missingMsg s.1,
           warnings := PromptValidator.check_examples content
             ((PromptValidator.generic_phrases.filter fun p => reSearch p content).map
               fun _ => PromptValidator.genericMsg) }) := by
  unfold PromptValidator.validate PromptValidator.load_file PromptValidator.initState
  simp [check_required_sections_eq, check_specificity_eq]

/-- Evaluating `validate` on a fresh instance when the file does not exist. -/
theorem validate_notFound (fp : String) :
    PromptValidator.validate PromptValidator.LoadOutcome.notFound
        (PromptValidator.initState fp)
      = (false, { filepath := fp, content := [],
                  errors := ["File not found: " ++ fp], warnings := [] }) := rfl

/-- Evaluating `validate` on a fresh instance when reading fails with any
other exception. -/
theorem validate_readError (fp e : String) :
    PromptValidator.validate (PromptValidator.LoadOutcome.readError e)
        (PromptValidator.initState fp)
      = (false, { filepath := fp, content := [],
                  errors := ["Error reading file: " ++ e], warnings := [] }) := rfl

/-- Claim C1: a successfully loaded document whose content matches all six
required heading patterns (any case, any order), matches none of the four
generic phrases, and contains a fenced code-block marker validates:
`validate` returns `true` and the error list is empty after it runs. -/
theorem C1_validate_compliant (fp : String) (content : List Char)
    (hsec : ∀ s ∈ PromptValidator.REQUIRED_SECTIONS, reSearch s.2 content = true)
    (hgen : ∀ p ∈ PromptValidator.generic_phrases, reSearch p content = false)
    (hex : containsSubstr PromptValidator.tripleBacktick content = true) :
    (PromptValidator.validate (PromptValidator.LoadOutcome.ok content)
        (PromptValidator.initState fp)).1 = true ∧
    (PromptValidator.validate (PromptValidator.LoadOutcome.ok content)
        (PromptValidator.initState fp)).2.errors = [] := by
  have hm : missingSections content = [] := by
    unfold missingSections
    rw [List.filter_eq_nil_iff]
    intro s hs
    simp [hsec s hs]
  rw [validate_ok]
  simp [hm]

/-- Claim C1 witness: the concrete compliant document validates with no
errors. -/
theorem C1_witness :
    (PromptValidator.validate (PromptValidator.LoadOutcome.ok c1doc)
        (PromptValidator.initState "t.md")).1 = true ∧
    (PromptValidator.validate (PromptValidator.LoadOutcome.ok c1doc)
        (PromptValidator.initState "t.md")).2.errors = [] :=
  C1_validate_compliant "t.md" c1doc (by decide) (by decide) (by decide)

/-- Claim C2: for a successfully loaded document, the error list after
`validate` is exactly one `missingMsg` per missing required heading (the
section name with underscores as spaces, title-cased) and nothing else, each
such message occurring exactly once, and `validate` returns `false` whenever
the set of missing headings is non-empty. -/
theorem C2_missing_sections (fp : String) (content : List Char) :
    (PromptValidator.validate (PromptValidator.LoadOutcome.ok content)
        (PromptValidator.initState fp)).2.errors
      = (missingSections content).map (fun s => PromptValidator.missingMsg s.1) ∧
    (∀ s ∈ missingSections content,
      ((PromptValidator.validate (PromptValidator.LoadOutcome.ok content)
          (PromptValidator.initState fp)).2.errors).count (PromptValidator.missingMsg s.1)
        = 1) ∧
    (missingSections content ≠ [] →
      (PromptValidator.validate (PromptValidator.LoadOutcome.ok content)
          (PromptValidator.initState fp)).1 = false) := by
  simp only [validate_ok]
  refine ⟨trivial, ?_, ?_⟩
  · intro s hs
    have hsub : List.Sublist
        ((missingSections content).map (fun s => PromptValidator.missingMsg s.1))
        (PromptValidator.REQUIRED_SECTIONS.map (fun s => PromptValidator.missingMsg s.1)) :=
      List.Sublist.map _ (List.filter_sublist _)
    have hnodup :
        (PromptValidator.REQUIRED_SECTIONS.map
          (fun s => PromptValidator.missingMsg s.1)).Nodup := by decide
    have hnd := hnodup.sublist hsub
    exact List.count_eq_one_of_mem hnd (List.mem_map_of_mem _ hs)
  · intro hne
    rcases List.exists_mem_of_ne_nil _ hne with ⟨s, hs⟩
    have hmap := List.ne_nil_of_mem (List.mem_map_of_mem
      (fun s => PromptValidator.missingMsg s.1) hs)
    cases hm : (missingSections content).map (fun s => PromptValidator.missingMsg s.1) with
    | nil => exact absurd hm hmap
    | cons a l => simp [hm]

/-- Claim C2 witness: the document containing only a Context heading gets
`false` from `validate`, and the Task error message occurs exactly once. -/
theorem C2_witness :
    (PromptValidator.validate (PromptValidator.LoadOutcome.ok c2doc)
        (PromptValidator.initState "t.md")).1 = false ∧
    ((PromptValidator.validate (PromptValidator.LoadOutcome.ok c2doc)
        (PromptValidator.initState "t.md")).2.errors).count
      (PromptValidator.missingMsg "task") = 1 :=
  ⟨(C2_missing_sections "t.md" c2doc).2.2 (by decide),
   (C2_missing_sections "t.md" c2doc).2.1 ("task", PromptValidator.patTask) (by decide)⟩

/-- Claim C3 counterexample: on a document matching two generic phrases the
specificity check appends two warnings, so it does not append at most one
warning per file. -/
theorem C3_counterexample :
    (PromptValidator.check_specificity c3doc []).length = 2 ∧
    ¬ (PromptValidator.check_specificity c3doc []).length ≤ 1 := by decide

/-- Claim C3 (amended): `check_specificity` appends one warning, always with
the same text, per generic phrase that matches the document, so a document
matching several phrases receives several identical warnings. -/
theorem C3_amended_one_warning_per_match (content : List Char) (warnings : List String) :
    PromptValidator.check_specificity content warnings
      = warnings ++ ((PromptValidator.generic_phrases.filter fun p => reSearch p content).map
          fun _ => PromptValidator.genericMsg) :=
  check_specificity_eq content warnings

/-- Claim C4: when the load fails, `validate` records exactly one error, runs
no content check (the warning list stays empty), and returns `false`; for a
nonexistent path that error is the file-not-found message naming the path. -/
theorem C4_load_failure (fp : String) (outcome : PromptValidator.LoadOutcome)
    (hfail : outcome = PromptValidator.LoadOutcome.notFound ∨
      ∃ e, outcome = PromptValidator.LoadOutcome.readError e) :
    (PromptValidator.validate outcome (PromptValidator.initState fp)).1 = false ∧
    (PromptValidator.validate outcome (PromptValidator.initState fp)).2.errors.length = 1 ∧
    (PromptValidator.validate outcome (PromptValidator.initState fp)).2.warnings = [] ∧
    (outcome = PromptValidator.LoadOutcome.notFound →
      (PromptValidator.validate outcome (PromptValidator.initState fp)).2.errors
        = ["File not found: " ++ fp]) := by
  rcases hfail with h | ⟨e, h⟩ <;> subst h
  · simp [validate_notFound]
  · simp [validate_readError]

/-- Claim C4 witness: validating a nonexistent path yields `false` and the
single file-not-found error naming the path. -/
theorem C4_witness :
    (PromptValidator.validate PromptValidator.LoadOutcome.notFound
        (PromptValidator.initState "missing.md")).1 = false ∧
    (PromptValidator.validate PromptValidator.LoadOutcome.notFound
        (PromptValidator.initState "missing.md")).2.errors
      = ["File not found: missing.md"] := by
  have h := C4_load_failure "missing.md" PromptValidator.LoadOutcome.notFound (Or.inl rfl)
  exact ⟨h.1, by rw [h.2.2.2 rfl]; decide⟩

/-- Claim C5: `validate` returns `true` exactly when the error list is empty
after it runs, whatever the load outcome, and a document with all six
required headings containing `Build me a` in any ASCII casing still gets
`true` while its warning list ends non-empty. -/
theorem C5_valid_iff_no_errors (fp : String) (outcome : PromptValidator.LoadOutcome)
    (content : List Char)
    (hsec : ∀ s ∈ PromptValidator.REQUIRED_SECTIONS, reSearch s.2 content = true)
    (hocc : ∃ pre occ post, content = pre ++ occ ++ post ∧ ciEqList buildMeAList occ = true) :
    ((PromptValidator.validate outcome (PromptValidator.initState fp)).1
        = (PromptValidator.validate outcome (PromptValidator.initState fp)).2.errors.isEmpty) ∧
    (PromptValidator.validate (PromptValidator.LoadOutcome.ok content)
        (PromptValidator.initState fp)).1 = true ∧
    (PromptValidator.validate (PromptValidator.LoadOutcome.ok content)
        (PromptValidator.initState fp)).2.warnings ≠ [] := by
  have hm : missingSections content = [] := by
    unfold missingSections
    rw [List.filter_eq_nil_iff]
    intro s hs
    simp [hsec s hs]
  have hsearch : reSearch PromptValidator.patBuildMeA content = true := by
    rcases hocc with ⟨pre, occ, post, hc, hci⟩
    subst hc
    rw [List.append_assoc]
    exact reSearch_of_matchToks _ _ _ (matchToks_buildMeA occ post hci)
  refine ⟨?_, ?_, ?_⟩
  · cases outcome with
    | ok c => simp [validate_ok]
    | notFound => simp [validate_notFound]
    | readError e => simp [validate_readError]
  · rw [validate_ok]
    simp [hm]
  · rw [validate_ok]
    have hmem : PromptValidator.patBuildMeA
        ∈ PromptValidator.generic_phrases.filter fun p => reSearch p content :=
      List.mem_filter.mpr ⟨by decide, hsearch⟩
    have hW := List.ne_nil_of_mem
      (List.mem_map_of_mem (fun _ => PromptValidator.genericMsg) hmem)
    dsimp only
    unfold PromptValidator.check_examples
    by_cases hb : containsSubstr PromptValidator.tripleBacktick content = true
    · rw [if_pos hb]
      exact hW
    · rw [if_neg hb]
      simp

/-- Claim C5 witness: the concrete compliant document containing `Build me a`
validates with a non-empty warning list. -/
theorem C5_witness :
    (PromptValidator.validate (PromptValidator.LoadOutcome.ok c5doc)
        (PromptValidator.initState "t.md")).1 = true ∧
    (PromptValidator.validate (PromptValidator.LoadOutcome.ok c5doc)
        (PromptValidator.initState "t.md")).2.warnings ≠ [] :=
  (C5_valid_iff_no_errors "t.md" (PromptValidator.LoadOutcome.ok c5doc) c5doc
    (by decide) ⟨c5pre, c5occ, c5post, rfl, by decide⟩).2

/-- Claim C6: after validating a loaded document, the warning list contains
the missing-examples warning iff the document has no fenced code-block
marker. -/
theorem C6_examples_warning_iff (fp : String) (content : List Char) :
    (PromptValidator.noExamplesMsg
        ∈ (PromptValidator.validate (PromptValidator.LoadOutcome.ok content)
            (PromptValidator.initState fp)).2.warnings)
      ↔ containsSubstr PromptValidator.tripleBacktick content = false := by
  rw [validate_ok]
  dsimp only
  unfold PromptValidator.check_examples
  by_cases hb : containsSubstr PromptValidator.tripleBacktick content = true
  · rw [if_pos hb]
    constructor
    · intro hmem
      rcases List.mem_map.mp hmem with ⟨p, hp, he⟩
      exact absurd he (by decide)
    · intro hfalse
      rw [hb] at hfalse
      exact absurd hfalse (by decide)
  · have hb2 : containsSubstr PromptValidator.tripleBacktick content = false := by
      cases h : containsSubstr PromptValidator.tripleBacktick content
      · rfl
      · exact absurd h hb
    rw [if_neg hb, hb2]
    simp

/-- Claim C6 witness: a document with no fenced code block gets the
missing-examples warning. -/
theorem C6_witness :
    PromptValidator.noExamplesMsg
      ∈ (PromptValidator.validate (PromptValidator.LoadOutcome.ok c6doc)
          (PromptValidator.initState "t.md")).2.warnings :=
  (C6_examples_warning_iff "t.md" c6doc).mpr (by decide)

/-- Claim C7: the findings are a deterministic function of the loaded
content: validating the same unmodified content twice, even under different
paths, returns the same verdict and identical error and warning lists, so a
repeated `validate()` run reproduces its findings. -/
theorem C7_deterministic (fp1 fp2 : String) (content : List Char) :
    (PromptValidator.validate (PromptValidator.LoadOutcome.ok content)
        (PromptValidator.initState fp1)).1
      = (PromptValidator.validate (PromptValidator.LoadOutcome.ok content)
          (PromptValidator.initState fp2)).1 ∧
    (PromptValidator.validate (PromptValidator.LoadOutcome.ok content)
        (PromptValidator.initState fp1)).2.errors
      = (PromptValidator.validate (PromptValidator.LoadOutcome.ok content)
          (PromptValidator.initState fp2)).2.errors ∧
    (PromptValidator.validate (PromptValidator.LoadOutcome.ok content)
        (PromptValidator.initState fp1)).2.warnings
      = (PromptValidator.validate (PromptValidator.LoadOutcome.ok content)
          (PromptValidator.initState fp2)).2.warnings := by
  simp [validate_ok]

/-- Claim C8: the exit status is 1 when no path argument is supplied (and no
validation is attempted) and otherwise 0 exactly when the validation of the
first path left no errors, so warnings never change the exit status. -/
theorem C8_exit_codes (args : List String) (fs : String → PromptValidator.LoadOutcome) :
    (args = [] → mainRun args fs = (1, [])) ∧
    (∀ fp rest, args = fp :: rest →
      (mainRun args fs).1
        = (if (PromptValidator.validate (fs fp) (PromptValidator.initState fp)).2.errors.isEmpty
            then 0 else 1)) := by
  constructor
  · intro h
    subst h
    rfl
  · intro fp rest h
    subst h
    simp only [mainRun, print_report_eq]
    by_cases hb : (PromptValidator.validate (fs fp)
        (PromptValidator.initState fp)).2.errors.isEmpty = true
    · rw [if_pos hb, if_pos hb]
    · rw [if_neg hb, if_neg hb]

/-- Claim C8 witness: no arguments exits 1 with nothing validated, and a
single failing path exits 1. -/
theorem C8_witness :
    mainRun [] (fun _ => PromptValidator.LoadOutcome.notFound) = (1, []) ∧
    (mainRun ["a.md"] (fun _ => PromptValidator.LoadOutcome.notFound)).1 = 1 := by
  constructor
  · exact (C8_exit_codes [] (fun _ => PromptValidator.LoadOutcome.notFound)).1 rfl
  · rw [(C8_exit_codes ["a.md"] (fun _ => PromptValidator.LoadOutcome.notFound)).2
      "a.md" [] rfl]
    decide

/-- Claim C9 counterexample: invoked with two path arguments the program
validates only the first file, not one validation per argument. -/
theorem C9_counterexample :
    (mainRun ["a.md", "b.md"] (fun _ => PromptValidator.LoadOutcome.notFound)).2
      = ["a.md"] ∧
    (mainRun ["a.md", "b.md"] (fun _ => PromptValidator.LoadOutcome.notFound)).2.length
      ≠ 2 := by decide

/-- Claim C9 (amended): with one or more path arguments the program runs the
single-file validation exactly once, on the first argument only; the
remaining arguments are ignored. -/
theorem C9_amended_first_only (args : List String)
    (fs : String → PromptValidator.LoadOutcome) (fp : String) (rest : List String)
    (h : args = fp :: rest) : (mainRun args fs).2 = [fp] := by
  subst h
  simp only [mainRun]
  by_cases hb : PromptValidator.print_report
      (PromptValidator.validate (fs fp) (PromptValidator.initState fp)).2 = true
  · rw [if_pos hb]
  · rw [if_neg hb]

/-- Claim C9 witness: with two path arguments exactly the first is
validated. -/
theorem C9_witness :
    (mainRun ["a.md", "c.md"] (fun _ => PromptValidator.LoadOutcome.notFound)).2
      = ["a.md"] :=
  C9_amended_first_only ["a.md", "c.md"] (fun _ => PromptValidator.LoadOutcome.notFound)
    "a.md" ["c.md"] rfl

/-- Claim C10: the heading patterns are searched for anywhere in the text,
not only at line starts: whenever a required section's pattern matches after
an arbitrary prefix (mid-line, inside a code fence, or behind an extra `#` of
a deeper heading), no missing-section error is emitted for that section. -/
theorem C10_search_anywhere (fp : String) (pre rest : List Char)
    (sec : String × List PatTok) (hsec : sec ∈ PromptValidator.REQUIRED_SECTIONS)
    (hmatch : matchToks sec.2 rest = true) :
    PromptValidator.missingMsg sec.1
      ∉ (PromptValidator.validate (PromptValidator.LoadOutcome.ok (pre ++ rest))
          (PromptValidator.initState fp)).2.errors := by
  rw [validate_ok]
  dsimp only
  intro hmem
  rcases List.mem_map.mp hmem with ⟨s2, hs2, heq⟩
  have hs2R : s2 ∈ PromptValidator.REQUIRED_SECTIONS :=
    List.mem_of_mem_filter hs2
  have hnodup :
      (PromptValidator.REQUIRED_SECTIONS.map
        (fun s => PromptValidator.missingMsg s.1)).Nodup := by decide
  have hinj := List.inj_on_of_nodup_map hnodup hs2R hsec heq
  have hfilter := (List.mem_filter.mp hs2).2
  rw [hinj] at hfilter
  have hsearch : reSearch sec.2 (pre ++ rest) = true :=
    reSearch_of_matchToks sec.2 pre rest hmatch
  rw [hsearch] at hfilter
  exact absurd hfilter (by decide)

/-- Claim C10 witness: in a document whose only heading-like text is the
deeper mid-line `### Context in passing`, no Context error is emitted. -/
theorem C10_witness :
    PromptValidator.missingMsg "context"
      ∉ (PromptValidator.validate (PromptValidator.LoadOutcome.ok (c10pre ++ c10rest))
          (PromptValidator.initState "t.md")).2.errors :=
  C10_search_anywhere "t.md" c10pre c10rest ("context", PromptValidator.patContext)
    (by decide) (by decide)
